import Mathlib

/- A shallow embedding of the casually-blue/llvm-rust core: the `Linkage`
attribute enum of `src/attributes/linkage.rs` and the `Module` aggregate of
`src/module_elements/module.rs`, together with the collaborator types and the
append operations that the specification describes but the source does not yet
contain (those are modelled from the spec and marked as such). -/

namespace LlvmRust

/-- Embeds the `Linkage` enum of `src/attributes/linkage.rs`: a closed set of
11 dataless variants with derived structural equality. -/
inductive Linkage where
  | Private
  | Internal
  | AvailableExternally
  | LinkOnce
  | Weak
  | Common
  | Appending
  | ExternWeak
  | LinkOnceODR
  | WeakODR
  | External
deriving DecidableEq, BEq

/-- Embeds `impl Display for Linkage` (`src/attributes/linkage.rs`, the match
in `fmt`): the keyword string written for each variant. -/
def Linkage.fmt : Linkage → String
  | .Private => "private"
  | .Internal => "internal"
  | .AvailableExternally => "available_externally"
  | .LinkOnce => "link_once"
  | .Weak => "weak"
  | .Common => "common"
  | .Appending => "appending"
  | .ExternWeak => "extern_weak"
  | .LinkOnceODR => "link_once_odr"
  | .WeakODR => "weak_odr"
  | .External => "external"

/-- Modelled from the spec: the `Function` collaborator type
(`src/module_elements/function.rs` is not among the sources). The spec treats
it as an opaque, equality-comparable element exposing a name for uniqueness
checks. -/
structure Function where
  name : String
deriving DecidableEq

/-- Modelled from the spec: the `GlobalVariable` collaborator type
(`src/module_elements/global.rs` is not among the sources); opaque,
equality-comparable, exposes a name for uniqueness checks. -/
structure GlobalVariable where
  name : String
deriving DecidableEq

/-- Modelled from the spec: the `Metadata` collaborator type
(`src/module_elements/metadata.rs` is not among the sources); opaque and
equality-comparable; it does not take part in name-uniqueness checks. -/
structure Metadata where
  name : String
deriving DecidableEq

/-- Embeds the `Module` struct of `src/module_elements/module.rs`: a name and
three owned ordered sequences, with derived structural equality. -/
structure Module where
  name : String
  functions : List Function
  globals : List GlobalVariable
  metadata : List Metadata
deriving DecidableEq

/-- Embeds `Module::new` (`src/module_elements/module.rs`): stores the given
name and creates three empty sequences; the source performs no validation. -/
def Module.new (name : String) : Module :=
  ⟨name, [], [], []⟩

/-- Modelled from the spec: the typed failure conditions of spec section 7. -/
inductive ModuleError where
  | InvalidName
  | NameCollision
deriving DecidableEq

/-- Follows the spec's words for `create(name)` (spec section 4.2): fails with
InvalidName iff the name is empty, otherwise behaves as the constructor. This
is the spec-worded variant, to be compared against the source `Module.new`. -/
def Module.createSpec (name : String) : Except ModuleError Module :=
  if name = "" then Except.error ModuleError.InvalidName
  else Except.ok (Module.new name)

/-- Modelled from the spec: `append function` (spec sections 4.2 and 7), absent
from the source. Checks the new name against existing function and global
names, fails with NameCollision on a duplicate, otherwise adds the element at
the end of the function sequence. -/
def Module.appendFunction (m : Module) (f : Function) : Except ModuleError Module :=
  if f.name ∈ m.functions.map Function.name ∨ f.name ∈ m.globals.map GlobalVariable.name then
    Except.error ModuleError.NameCollision
  else
    Except.ok ⟨m.name, m.functions ++ [f], m.globals, m.metadata⟩

/-- Modelled from the spec: `append global` (spec sections 4.2 and 7), absent
from the source; same uniqueness check as for functions, appends at the end of
the global sequence. -/
def Module.appendGlobal (m : Module) (g : GlobalVariable) : Except ModuleError Module :=
  if g.name ∈ m.functions.map Function.name ∨ g.name ∈ m.globals.map GlobalVariable.name then
    Except.error ModuleError.NameCollision
  else
    Except.ok ⟨m.name, m.functions, m.globals ++ [g], m.metadata⟩

/-- Modelled from the spec: `append metadata` (spec section 4.2), absent from
the source; metadata are unnamed for uniqueness purposes, so the append cannot
fail and simply adds at the end of the metadata sequence. -/
def Module.appendMetadata (m : Module) (d : Metadata) : Module :=
  ⟨m.name, m.functions, m.globals, m.metadata ++ [d]⟩

/-- A successful function append yields exactly the input module with the new
function added at the end of its function sequence. -/
theorem appendFunction_ok_eq (m m2 : Module) (a : Function)
    (h : m.appendFunction a = Except.ok m2) :
    m2 = ⟨m.name, m.functions ++ [a], m.globals, m.metadata⟩ := by
  unfold Module.appendFunction at h
  split at h
  · exact nomatch h
  · exact (Except.ok.inj h).symm

/-- A successful global append yields exactly the input module with the new
global added at the end of its global sequence. -/
theorem appendGlobal_ok_eq (m m2 : Module) (a : GlobalVariable)
    (h : m.appendGlobal a = Except.ok m2) :
    m2 = ⟨m.name, m.functions, m.globals ++ [a], m.metadata⟩ := by
  unfold Module.appendGlobal at h
  split at h
  · exact nomatch h
  · exact (Except.ok.inj h).symm

/-- C1: for each of the 11 Linkage variants the Display implementation returns
exactly the canonical keyword listed in the spec's table. -/
theorem linkage_fmt_keywords :
    Linkage.fmt .Private = "private" ∧
    Linkage.fmt .Internal = "internal" ∧
    Linkage.fmt .AvailableExternally = "available_externally" ∧
    Linkage.fmt .LinkOnce = "link_once" ∧
    Linkage.fmt .Weak = "weak" ∧
    Linkage.fmt .Common = "common" ∧
    Linkage.fmt .Appending = "appending" ∧
    Linkage.fmt .ExternWeak = "extern_weak" ∧
    Linkage.fmt .LinkOnceODR = "link_once_odr" ∧
    Linkage.fmt .WeakODR = "weak_odr" ∧
    Linkage.fmt .External = "external" :=
  ⟨rfl, rfl, rfl, rfl, rfl, rfl, rfl, rfl, rfl, rfl, rfl⟩

/-- C2: the variant-to-keyword encoding is injective: distinct variants always
produce distinct keyword strings. -/
theorem linkage_fmt_injective (a b : Linkage) (h : Linkage.fmt a = Linkage.fmt b) :
    a = b := by
  revert h
  cases a <;> cases b <;> decide

/-- Witness for C2: the injectivity theorem applied at a concrete pair. -/
theorem linkage_fmt_injective_witness : Linkage.Weak = Linkage.Weak :=
  linkage_fmt_injective Linkage.Weak Linkage.Weak rfl

/-- C3: `Module.new "main"` has name `"main"` and three empty sequences, and it
equals an independently constructed `Module.new "main"`. -/
theorem module_new_main :
    Module.new "main" = ⟨"main", [], [], []⟩ ∧
    Module.new "main" = Module.new "main" :=
  ⟨rfl, rfl⟩

/-- C4: two Modules are equal iff their names and their three sequences are
element-wise equal in order; in particular two Modules differing only in the
position of one element are not equal. -/
theorem module_eq_iff :
    (∀ a b : Module, a = b ↔
      a.name = b.name ∧ a.functions = b.functions ∧
      a.globals = b.globals ∧ a.metadata = b.metadata) ∧
    (⟨"m", [], [⟨"x"⟩, ⟨"y"⟩], []⟩ : Module) ≠ ⟨"m", [], [⟨"y"⟩, ⟨"x"⟩], []⟩ := by
  constructor
  · intro a b
    cases a
    cases b
    simp
  · decide

/-- C5 counterexample: on the empty name the source `Module::new` succeeds and
returns a Module named `""`, whereas the spec-worded create fails with
InvalidName there: the claimed failure path does not exist in the code. -/
theorem module_new_empty_succeeds :
    Module.new "" = ⟨"", [], [], []⟩ ∧
    Module.createSpec "" = Except.error ModuleError.InvalidName :=
  ⟨rfl, by simp [Module.createSpec]⟩

/-- C5 amended: the source `Module::new` performs no name validation: for every
name, including the empty string, it succeeds and returns the Module with that
name and three empty sequences (the InvalidName failure is spec policy for a
faithful reimplementation, not present in the code). -/
theorem module_new_no_validation (s : String) :
    Module.new s = ⟨s, [], [], []⟩ :=
  rfl

/-- C6: appending a named function or global whose name duplicates an existing
function or global name in the module fails with NameCollision (leaving no
changed module behind); in particular appending a function named "foo" and then
a global named "foo" to the same module fails with NameCollision. -/
theorem module_append_name_collision :
    (∀ (m : Module) (f : Function),
      (f.name ∈ m.functions.map Function.name ∨ f.name ∈ m.globals.map GlobalVariable.name) →
      m.appendFunction f = Except.error ModuleError.NameCollision) ∧
    (∀ (m : Module) (g : GlobalVariable),
      (g.name ∈ m.functions.map Function.name ∨ g.name ∈ m.globals.map GlobalVariable.name) →
      m.appendGlobal g = Except.error ModuleError.NameCollision) ∧
    (Module.new "m").appendFunction ⟨"foo"⟩ = Except.ok ⟨"m", [⟨"foo"⟩], [], []⟩ ∧
    Module.appendGlobal ⟨"m", [⟨"foo"⟩], [], []⟩ ⟨"foo"⟩
      = Except.error ModuleError.NameCollision := by
  refine ⟨?_, ?_, ?_, ?_⟩
  · intro m f h
    unfold Module.appendFunction
    exact if_pos h
  · intro m g h
    unfold Module.appendGlobal
    exact if_pos h
  · rfl
  · rfl

/-- Witness for C6: the NameCollision theorem applied at a concrete module that
already holds a function named "foo". -/
theorem module_append_name_collision_witness :
    Module.appendFunction ⟨"m", [⟨"foo"⟩], [], []⟩ ⟨"foo"⟩
      = Except.error ModuleError.NameCollision :=
  module_append_name_collision.1 ⟨"m", [⟨"foo"⟩], [], []⟩ ⟨"foo"⟩ (Or.inl (by simp))

/-- C7: appends preserve insertion order: two successive successful appends to
the same sequence leave it ending in [A, B], and each append changes nothing
except adding its one element at the end of its own sequence (so no operation
reorders or deduplicates the sequences). -/
theorem module_append_order :
    (∀ (m m2 m3 : Module) (a b : Function),
      m.appendFunction a = Except.ok m2 → m2.appendFunction b = Except.ok m3 →
      m3.functions = m.functions ++ [a, b]) ∧
    (∀ (m m2 m3 : Module) (a b : GlobalVariable),
      m.appendGlobal a = Except.ok m2 → m2.appendGlobal b = Except.ok m3 →
      m3.globals = m.globals ++ [a, b]) ∧
    (∀ (m : Module) (a b : Metadata),
      ((m.appendMetadata a).appendMetadata b).metadata = m.metadata ++ [a, b]) ∧
    (∀ (m m2 : Module) (a : Function), m.appendFunction a = Except.ok m2 →
      m2 = ⟨m.name, m.functions ++ [a], m.globals, m.metadata⟩) ∧
    (∀ (m m2 : Module) (a : GlobalVariable), m.appendGlobal a = Except.ok m2 →
      m2 = ⟨m.name, m.functions, m.globals ++ [a], m.metadata⟩) ∧
    (∀ (m : Module) (a : Metadata),
      m.appendMetadata a = ⟨m.name, m.functions, m.globals, m.metadata ++ [a]⟩) := by
  refine ⟨?_, ?_, ?_, appendFunction_ok_eq, appendGlobal_ok_eq, fun m a => rfl⟩
  · intro m m2 m3 a b h1 h2
    rw [appendFunction_ok_eq m2 m3 b h2, appendFunction_ok_eq m m2 a h1]
    simp
  · intro m m2 m3 a b h1 h2
    rw [appendGlobal_ok_eq m2 m3 b h2, appendGlobal_ok_eq m m2 a h1]
    simp
  · intro m a b
    simp [Module.appendMetadata]

/-- Witness for C7: the order theorem applied to two concrete successful
function appends, showing the sequence ends in the two elements in order. -/
theorem module_append_order_witness :
    (⟨"w", [⟨"a"⟩, ⟨"b"⟩], [], []⟩ : Module).functions = [] ++ [⟨"a"⟩, ⟨"b"⟩] :=
  module_append_order.1 (Module.new "w") ⟨"w", [⟨"a"⟩], [], []⟩
    ⟨"w", [⟨"a"⟩, ⟨"b"⟩], [], []⟩ ⟨"a"⟩ ⟨"b"⟩ rfl rfl

/-- C8: the encoding is total over the closed variant set with no failure path
and no default fallback: every variant maps to one of the 11 keywords. -/
theorem linkage_fmt_total : ∀ l : Linkage,
    Linkage.fmt l ∈ ["private", "internal", "available_externally", "link_once",
      "weak", "common", "appending", "extern_weak", "link_once_odr", "weak_odr",
      "external"] := by
  intro l
  cases l <;> simp [Linkage.fmt]

/-- C9: two Linkage values are equal iff they are the same variant: the derived
equality test agrees with propositional equality on every pair. -/
theorem linkage_beq_iff (a b : Linkage) : (a == b) = true ↔ a = b := by
  cases a <;> cases b <;> decide

/-- C10: `Module::new` accepts every string without validation and returns the
Module carrying exactly that name together with three empty sequences. -/
theorem module_new_accepts_all (s : String) :
    (Module.new s).name = s ∧ (Module.new s).functions = [] ∧
    (Module.new s).globals = [] ∧ (Module.new s).metadata = [] :=
  ⟨rfl, rfl, rfl, rfl⟩

end LlvmRust
